import Mathlib

/-!
Verification of the rate-limiter decision engine and its HTTP handlers.

Shallow embedding of:
- `src/services/rateLimiter.ts` (`checkRateLimit`, the decision engine),
- `src/services/config.ts` (the hard-coded tier registry),
- `src/index.ts` (the three endpoint handlers and their error mappings),
- `src/routes/statsRoutes.ts` (the request/response schemas).

Modelling conventions:
- JS numbers that the program only ever uses as integers (millisecond clock
  readings, limits, window lengths, Redis counters and TTLs) are `Int`;
  `Math.floor(a / b)` on such values with `b > 0` is `Int.fdiv`.
- The Redis counter store is a total map `String → Int` from keys to stored
  counts, `0` standing for an absent key; the Lua `INCR`-with-`EXPIRE` script
  returns the post-increment value, which the embedding mirrors by reading
  `store key + 1` and writing it back.  TTL state is not tracked; the
  `redis.ttl` reading on the over-limit path is an oracle `String → Int`
  (its value may be `-1` or `-2`, the Redis sentinels).
- `Date` values (`override_limit_expiry`) are their `getTime()` millisecond
  timestamps.
- Fallible code returns `Except`.
-/

/-- Decimal digit list of a natural number, most significant first, computed
with explicit structural fuel so that it reduces by `decide`/`rfl`.
With fuel `> n` this is the standard base-10 rendering. -/
def natDecimalAux (fuel : Nat) (n : Nat) : List Char :=
  match fuel with
  | 0 => []
  | fuel + 1 =>
    if n < 10 then [Nat.digitChar n]
    else natDecimalAux fuel (n / 10) ++ [Nat.digitChar (n % 10)]

/-- Decimal rendering of a natural number as a character list. -/
def natDecimal (n : Nat) : List Char := natDecimalAux (n + 1) n

/-- Embedding of JavaScript number-to-string conversion for integer values
(as produced by template literals and `Number.prototype.toString`):
standard decimal rendering with a leading minus sign on negatives. -/
def intToString (i : Int) : String :=
  if i < 0 then String.mk ('-' :: natDecimal (-i).toNat)
  else String.mk (natDecimal i.toNat)

/-- `TierRateLimit` from `src/models/config.ts`: the per-tier policy pair. -/
structure TierRateLimit where
  requests : Int
  windowSeconds : Int
deriving DecidableEq

/-- The config registry: tier name to policy, `none` when the tier has no
entry (the runtime `config[user.tier]` lookup with the `!tierConfig` check
in `checkRateLimit`; tiers arrive from the database as strings). -/
def RateLimitConfig := String → Option TierRateLimit

/-- `rateLimitConfigData` from `src/services/config.ts`: the hard-coded
registry `{free: {10, 60}, premium: {100, 60}}`. -/
def rateLimitConfigData : RateLimitConfig := fun tier =>
  if tier = "free" then some ⟨10, 60⟩
  else if tier = "premium" then some ⟨100, 60⟩
  else none

/-- The subset of the `User` record (`src/models/user.ts`) consulted by the
decision engine: id, tier, and the three nullable override fields.
`override_limit_expiry` is the `getTime()` timestamp of the stored date. -/
structure User where
  id : String
  tier : String
  override_limit_requests : Option Int
  override_limit_window_seconds : Option Int
  override_limit_expiry : Option Int
deriving DecidableEq

/-- `RateLimitStatus` from `src/services/rateLimiter.ts`:
`Allowed` or `RateLimited {retryAfterSeconds}`. -/
inductive RateLimitStatus where
  | Allowed
  | RateLimited (retryAfterSeconds : Int)
deriving DecidableEq

/-- The failure channel of `checkRateLimit`: `RateLimitConfigError {reason}`
from `src/services/config.ts` (the `RedisError` transport channel of the
store client is outside the pure embedding). -/
inductive RLError where
  | configError (reason : String)
deriving DecidableEq

/-- The guard opening the override branch of `checkRateLimit`
(`src/services/rateLimiter.ts`): all three override fields non-null and
`override_limit_expiry.getTime() > nowMillis`. -/
def overrideIsActive (u : User) (nowMillis : Int) : Bool :=
  match u.override_limit_requests, u.override_limit_window_seconds,
      u.override_limit_expiry with
  | some _, some _, some exp => nowMillis < exp
  | _, _, _ => false

/-- The tier fallback of `checkRateLimit`: `config[user.tier]`, failing with
`RateLimitConfigError` when the tier has no entry. -/
def tierLimits (config : RateLimitConfig) (u : User) : Except RLError (Int × Int) :=
  match config u.tier with
  | none => .error (.configError ("Config missing for tier " ++ u.tier))
  | some tc => .ok (tc.requests, tc.windowSeconds)

/-- The limit-resolution prefix of `checkRateLimit`: the effective
`(effectiveLimit, effectiveWindowSeconds)` pair, from the override when all
three fields are present and unexpired, otherwise from the tier registry. -/
def resolveLimits (config : RateLimitConfig) (u : User) (nowMillis : Int) :
    Except RLError (Int × Int) :=
  match u.override_limit_requests, u.override_limit_window_seconds,
      u.override_limit_expiry with
  | some req, some win, some exp =>
    if nowMillis < exp then .ok (req, win) else tierLimits config u
  | _, _, _ => tierLimits config u

/-- `windowStartSeconds` as computed in `checkRateLimit`:
`Math.floor(Math.floor(nowMillis / 1000) / windowSeconds) * windowSeconds`. -/
def windowStartSeconds (nowMillis windowSeconds : Int) : Int :=
  ((nowMillis.fdiv 1000).fdiv windowSeconds) * windowSeconds

/-- `redisKey` as computed in `checkRateLimit`: the template literal
`rate_limit:<userId>:<windowStartSeconds>`. -/
def redisKey (userId : String) (windowStart : Int) : String :=
  "rate_limit:" ++ userId ++ ":" ++ intToString windowStart

/-- The counter key derived by the engine for a user at a clock reading,
given the effective window. -/
def keyOf (u : User) (nowMillis windowSeconds : Int) : String :=
  redisKey u.id (windowStartSeconds nowMillis windowSeconds)

/-- `checkRateLimit` from `src/services/rateLimiter.ts`, state-passing form.
`redisTtl` is the `redis.ttl` reading used on the over-limit path; `store`
maps keys to stored counts (`0` = absent).  Mirrors the source order:
resolve limits, reject `windowSeconds <= 0`, derive the key, run the atomic
increment script, compare strictly against the limit, and on the over-limit
path compute `retryAfter = ttl >= 0 ? ttl : windowSeconds`. -/
def checkRateLimit (config : RateLimitConfig) (redisTtl : String → Int)
    (u : User) (nowMillis : Int) (store : String → Int) :
    Except RLError (RateLimitStatus × (String → Int)) :=
  match resolveLimits config u nowMillis with
  | .error e => .error e
  | .ok (limit, windowSeconds) =>
    if windowSeconds ≤ 0 then
      .error (.configError ("Invalid windowSeconds: " ++ intToString windowSeconds))
    else
      let key := keyOf u nowMillis windowSeconds
      let currentCount := store key + 1
      let store2 := fun k => if k = key then currentCount else store k
      if currentCount > limit then
        let ttl := redisTtl key
        .ok (.RateLimited (if 0 ≤ ttl then ttl else windowSeconds), store2)
      else
        .ok (.Allowed, store2)

/-- The decision component of `checkRateLimit` (dropping the updated store). -/
def checkDecision (config : RateLimitConfig) (redisTtl : String → Int)
    (u : User) (nowMillis : Int) (store : String → Int) :
    Except RLError RateLimitStatus :=
  (checkRateLimit config redisTtl u nowMillis store).map Prod.fst

/-- Number of `Allowed` decisions over a sequence of `checkRateLimit` calls
(one clock reading per call), threading the counter store through the
successful calls exactly as the atomic increment does. -/
def runChecks (config : RateLimitConfig) (redisTtl : String → Int) (u : User) :
    List Int → (String → Int) → Nat
  | [], _ => 0
  | now :: rest, store =>
    match checkRateLimit config redisTtl u now store with
    | .ok (.Allowed, store2) => 1 + runChecks config redisTtl u rest store2
    | .ok (.RateLimited _, store2) => runChecks config redisTtl u rest store2
    | .error _ => runChecks config redisTtl u rest store

instance {ε α : Type} [DecidableEq ε] [DecidableEq α] : DecidableEq (Except ε α) := fun x y =>
  match x, y with
  | .ok a, .ok b => if h : a = b then isTrue (by simp [h]) else isFalse (by simp [h])
  | .error a, .error b => if h : a = b then isTrue (by simp [h]) else isFalse (by simp [h])
  | .ok _, .error _ => isFalse (by simp)
  | .error _, .ok _ => isFalse (by simp)

/-- The not-found message built by the handlers in `src/index.ts`:
`User <id> not found`. -/
def notFoundMessage (userId : String) : String :=
  "User " ++ userId ++ " not found"

/-- The error kinds reaching the `catchTags` blocks of the handlers in
`src/index.ts`: `NotFoundError {message}`, `SupabaseError`, `RedisError`,
`RateLimitConfigError` (payloads other than the forwarded not-found message
do not influence the external mapping). -/
inductive HandlerError where
  | notFoundErr (message : String)
  | supabaseErr
  | redisErr
  | configErr
deriving DecidableEq

/-- An HTTP response body as built by the handlers: either a plain string
or an object of shape `error: <string>` (`HttpErrorBodySchema`). -/
inductive RespBody where
  | str (s : String)
  | errObj (error : String)
deriving DecidableEq

/-- The `catchTags` mapping of `checkRateLimitHandler` (`src/index.ts`):
404 with the forwarded message object, 500 with "Database error" /
"Cache error" / "Config error" objects. -/
def checkHandlerErrorResponse : HandlerError → Int × RespBody
  | .notFoundErr m => (404, .errObj m)
  | .supabaseErr => (500, .errObj "Database error")
  | .redisErr => (500, .errObj "Cache error")
  | .configErr => (500, .errObj "Config error")

/-- The `catchTags` mapping of `updateUserRateLimitHandler` (`src/index.ts`):
it names only `NotFoundError` and `SupabaseError`; everything else falls to
the `catchAll` with the generic 500 object. -/
def updateHandlerErrorResponse : HandlerError → Int × RespBody
  | .notFoundErr m => (404, .errObj m)
  | .supabaseErr => (500, .errObj "Database error")
  | _ => (500, .errObj "An unexpected server error occurred")

/-- The `catchTags` mapping of `testCombinedLogicHandler` (`src/index.ts`,
the `/rate-limit-stats` endpoint): plain-string bodies `DB Error`,
`Cache Error`, `Config Error`, and the raw message on 404. -/
def statsHandlerErrorResponse : HandlerError → Int × RespBody
  | .notFoundErr m => (404, .str m)
  | .supabaseErr => (500, .str "DB Error")
  | .redisErr => (500, .str "Cache Error")
  | .configErr => (500, .str "Config Error")

/-- `CheckSuccessResponseSchema` from `src/routes/statsRoutes.ts`:
`statusCode: Number, status: String, RetryAfter: optional String`. -/
structure CheckSuccessBody where
  statusCode : Int
  status : String
  RetryAfter : Option String
deriving DecidableEq

/-- The success mapping of `checkRateLimitHandler` (`src/index.ts`):
`Allowed` yields `statusCode 200 / "ALLOWED"`, `RateLimited` yields
`statusCode 429 / "NOT ALLOWED"` with `RetryAfter` the decimal rendering of
`retryAfterSeconds`. -/
def checkHandlerResponse : RateLimitStatus → CheckSuccessBody
  | .Allowed => ⟨200, "ALLOWED", none⟩
  | .RateLimited r => ⟨429, "NOT ALLOWED", some (intToString r)⟩

/-- A wire-level HTTP response of the check endpoint: status line, body,
and the optional `Retry-After` header. -/
structure WireResponse where
  httpStatus : Int
  body : CheckSuccessBody
  retryAfterHeader : Option String
deriving DecidableEq

/-- Modelled from the spec: the HTTP framing layer (the `effect-http`
response marshalling configured by `checkRateLimitEndpoint` in
`src/routes/statsRoutes.ts`, which declares a 429 response carrying a
`Retry-After` header) is not part of the repository sources.  Per the
spec's external-interface table, the rate-limited response is sent with
the HTTP status named by the body's `statusCode` and the body's
`RetryAfter` value is also placed in the `Retry-After` header. -/
def frameCheckResponse (b : CheckSuccessBody) : WireResponse :=
  { httpStatus := b.statusCode, body := b, retryAfterHeader := b.RetryAfter }

/-- A JSON-ish value arriving in a request-body field, as discriminated by
the schema decoder. -/
inductive JsonVal where
  | num (n : Int)
  | str (s : String)
  | null
deriving DecidableEq

/-- A decoded override field: absent from the body, explicit null, or a
numeric value (dates are their timestamps). -/
inductive FieldVal where
  | absent
  | null
  | num (n : Int)
deriving DecidableEq

/-- An undecoded PUT `/users/:userId/rate-limits` body: each override field
absent (`none`) or some JSON value. -/
structure RawBody where
  override_limit_requests : Option JsonVal
  override_limit_window_seconds : Option JsonVal
  override_limit_expiry : Option JsonVal
deriving DecidableEq

/-- The decoded body: the three override fields. -/
structure UpdateBody where
  override_limit_requests : FieldVal
  override_limit_window_seconds : FieldVal
  override_limit_expiry : FieldVal
deriving DecidableEq

/-- Decode of one `Schema.optionalWith(Schema.Number, nullable)` field of
`UpdateUserRateLimitBodySchema` (`src/routes/statsRoutes.ts`): absent, null
and any number are accepted; anything else is rejected.  There is no
positivity refinement. -/
def decodeNumField : Option JsonVal → Option FieldVal
  | none => some .absent
  | some .null => some .null
  | some (.num n) => some (.num n)
  | some (.str _) => none

/-- Decode of the `Schema.optionalWith(Schema.DateFromString, nullable)`
expiry field: absent, null, or a date string (embedded as its parsed
timestamp; unparseable strings are rejected upstream, which the embedding
leaves to the caller by taking the parsed value). -/
def decodeExpiryField : Option JsonVal → Option FieldVal
  | none => some .absent
  | some .null => some .null
  | some (.num n) => some (.num n)
  | some (.str _) => none

/-- Decode of `UpdateUserRateLimitBodySchema`: field-wise, no cross-field or
range validation. -/
def decodeBody (r : RawBody) : Option UpdateBody :=
  match decodeNumField r.override_limit_requests,
      decodeNumField r.override_limit_window_seconds,
      decodeExpiryField r.override_limit_expiry with
  | some a, some b, some c => some ⟨a, b, c⟩
  | _, _, _ => none

/-- The override columns of a stored user row. -/
structure OverrideRow where
  override_limit_requests : Option Int
  override_limit_window_seconds : Option Int
  override_limit_expiry : Option Int
deriving DecidableEq

/-- One field of the `updateData` record built by
`updateUserRateLimitHandler` (`src/index.ts`): the column is included in
the UPDATE exactly when the key is `in` the body (`none` = not included,
`some v` = set to `v`, with `some none` writing NULL). -/
def fieldToSet : FieldVal → Option (Option Int)
  | .absent => none
  | .null => some none
  | .num n => some (some n)

/-- Applying the handler's `updateData` to a stored row: included columns
are overwritten, the rest keep their values. -/
def applyUpdate (row : OverrideRow) (b : UpdateBody) : OverrideRow :=
  { override_limit_requests :=
      (fieldToSet b.override_limit_requests).getD row.override_limit_requests
    override_limit_window_seconds :=
      (fieldToSet b.override_limit_window_seconds).getD row.override_limit_window_seconds
    override_limit_expiry :=
      (fieldToSet b.override_limit_expiry).getD row.override_limit_expiry }

/-- Outcome of the PUT `/users/:userId/rate-limits` endpoint. -/
inductive UpdateResult where
  | badRequest
  | notFound (message : String)
  | dbError
  | success (updated : OverrideRow)
deriving DecidableEq

/-- The override-writer endpoint, end to end: schema decode (non-UUID ids
and malformed bodies are rejected at the edge as 400), then
`updateUserRateLimitHandler` (`src/index.ts`): the Supabase UPDATE of the
included columns, `SupabaseError` when the store errors (`dbErr`),
`NotFoundError` when no row matches, else the 200 success response carrying
the post-update trio. -/
def updateEndpoint (raw : RawBody) (userId : String)
    (stored : Option OverrideRow) (dbErr : Bool) : UpdateResult :=
  match decodeBody raw with
  | none => .badRequest
  | some b =>
    if dbErr then .dbError
    else
      match stored with
      | none => .notFound (notFoundMessage userId)
      | some row => .success (applyUpdate row b)

/-- A fixed TTL oracle for concrete instantiations. -/
def wTtl : String → Int := fun _ => 42

/-- The empty counter store. -/
def store0 : String → Int := fun _ => 0

/-- A free-tier user with no override. -/
def freeUser : User :=
  ⟨"11111111-1111-1111-1111-111111111111", "free", none, none, none⟩

/-- A user carrying a full override `(5, 30)` expiring at `t = 100000` ms. -/
def overrideUser : User :=
  ⟨"22222222-2222-2222-2222-222222222222", "free", some 5, some 30, some 100000⟩

/-- A user with an active override whose limit is `0`. -/
def zeroLimitUser : User :=
  ⟨"33333333-3333-3333-3333-333333333333", "free", some 0, some 60, some 100000⟩

/-- A user whose tier has no entry in the hard-coded registry. -/
def unknownTierUser : User :=
  ⟨"55555555-5555-5555-5555-555555555555", "gold", none, none, none⟩

/-- A user with an active override whose window is `0`, on an unknown tier. -/
def zeroWindowUser : User :=
  ⟨"44444444-4444-4444-4444-444444444444", "gold", some 1, some 0, some 100000⟩

/-- A request body supplying `override_limit_requests = 0`. -/
def rawZeroBody : RawBody := ⟨some (.num 0), none, none⟩

/-- A stored user row with no overrides set. -/
def emptyRow : OverrideRow := ⟨none, none, none⟩

/-- Fuel irrelevance for the decimal rendering: any sufficient fuel gives the
same digit list. -/
theorem natDecimalAux_fuel (f1 : Nat) : ∀ f2 n : Nat, n < f1 → n < f2 →
    natDecimalAux f1 n = natDecimalAux f2 n := by
  induction f1 with
  | zero => intro f2 n h1 h2; omega
  | succ f ih =>
    intro f2 n h1 h2
    cases f2 with
    | zero => omega
    | succ f2 =>
      simp only [natDecimalAux]
      split
      · rfl
      · rename_i hn
        rw [ih f2 (n / 10) (by omega) (by omega)]

/-- Unfolding equation of `natDecimal`. -/
theorem natDecimal_eq (n : Nat) :
    natDecimal n = if n < 10 then [Nat.digitChar n]
      else natDecimal (n / 10) ++ [Nat.digitChar (n % 10)] := by
  rw [natDecimal, natDecimalAux]
  split
  · rfl
  · rename_i hn
    rw [natDecimal, natDecimalAux_fuel n (n / 10 + 1) (n / 10) (by omega) (by omega)]

/-- The decimal rendering is never empty. -/
theorem natDecimal_ne_nil (n : Nat) : natDecimal n ≠ [] := by
  rw [natDecimal_eq]
  split <;> simp

/-- `Nat.digitChar` is injective on decimal digits. -/
theorem digitChar_inj (a b : Nat) (ha : a < 10) (hb : b < 10)
    (h : Nat.digitChar a = Nat.digitChar b) : a = b := by
  interval_cases a <;> interval_cases b <;> revert h <;> decide

/-- The decimal rendering of naturals is injective. -/
theorem natDecimal_inj (a : Nat) : ∀ b : Nat, natDecimal a = natDecimal b → a = b := by
  induction a using Nat.strong_induction_on with
  | _ a ih =>
    intro b h
    rw [natDecimal_eq a, natDecimal_eq b] at h
    by_cases ha : a < 10 <;> by_cases hb : b < 10
    · rw [if_pos ha, if_pos hb] at h
      exact digitChar_inj a b ha hb (List.cons.inj h).1
    · rw [if_pos ha, if_neg hb] at h
      exfalso
      have hl := congrArg List.length h
      simp only [List.length_append, List.length_cons, List.length_nil,
        List.length_singleton] at hl
      exact natDecimal_ne_nil (b / 10) (List.eq_nil_of_length_eq_zero (by omega))
    · rw [if_neg ha, if_pos hb] at h
      exfalso
      have hl := congrArg List.length h
      simp only [List.length_append, List.length_cons, List.length_nil,
        List.length_singleton] at hl
      exact natDecimal_ne_nil (a / 10) (List.eq_nil_of_length_eq_zero (by omega))
    · rw [if_neg ha, if_neg hb] at h
      obtain ⟨h1, h2⟩ := List.append_inj' h (by simp)
      have hm : a % 10 = b % 10 :=
        digitChar_inj _ _ (Nat.mod_lt _ (by omega)) (Nat.mod_lt _ (by omega))
          (by simpa using h2)
      have hq : a / 10 = b / 10 := ih (a / 10) (by omega) (b / 10) h1
      omega

/-- The decimal rendering of integers is injective on non-negatives. -/
theorem intToString_inj (a b : Int) (ha : 0 ≤ a) (hb : 0 ≤ b)
    (h : intToString a = intToString b) : a = b := by
  rw [intToString, intToString, if_neg (by omega), if_neg (by omega)] at h
  have h2 : natDecimal a.toNat = natDecimal b.toNat := by
    have := congrArg String.data h
    simpa using this
  have := natDecimal_inj _ _ h2
  omega

/-- The two `RateLimitConfigError` reasons produced by `checkRateLimit` are
never the same string. -/
theorem invalid_ne_missing (s t : String) :
    "Invalid windowSeconds: " ++ s ≠ "Config missing for tier " ++ t := by
  intro h
  have hd := congrArg (fun z : String => z.data.head?) h
  simp only [String.data_append] at hd
  have h1 : ("Invalid windowSeconds: ".data ++ s.data).head? = some 'I' := rfl
  have h2 : ("Config missing for tier ".data ++ t.data).head? = some 'C' := rfl
  rw [h1, h2] at hd
  exact absurd hd (by decide)

/-- When all three override fields are present and unexpired, the resolver
takes the override branch. -/
theorem resolveLimits_of_active (config : RateLimitConfig) (u : User) (now : Int)
    (req win exp : Int) (hr : u.override_limit_requests = some req)
    (hw : u.override_limit_window_seconds = some win)
    (he : u.override_limit_expiry = some exp) (hexp : now < exp) :
    resolveLimits config u now = .ok (req, win) := by
  rw [resolveLimits, hr, hw, he]
  simp [hexp]

/-- When the override guard fails, the resolver falls back to the tier
registry. -/
theorem resolveLimits_of_inactive (config : RateLimitConfig) (u : User) (now : Int)
    (h : overrideIsActive u now = false) :
    resolveLimits config u now = tierLimits config u := by
  rw [overrideIsActive] at h
  cases hr : u.override_limit_requests <;>
    cases hw : u.override_limit_window_seconds <;>
    cases he : u.override_limit_expiry <;>
    simp_all [resolveLimits]

/-- Characterisation of the override guard. -/
theorem overrideIsActive_iff (u : User) (now : Int) :
    overrideIsActive u now = true ↔
      ∃ req win exp, u.override_limit_requests = some req ∧
        u.override_limit_window_seconds = some win ∧
        u.override_limit_expiry = some exp ∧ now < exp := by
  cases hr : u.override_limit_requests <;>
    cases hw : u.override_limit_window_seconds <;>
    cases he : u.override_limit_expiry <;>
    simp_all [overrideIsActive]

/-- The resolver as a single case split on the override guard. -/
theorem resolveLimits_cases (config : RateLimitConfig) (u : User) (now : Int) :
    resolveLimits config u now =
      (if overrideIsActive u now then
        .ok (u.override_limit_requests.getD 0, u.override_limit_window_seconds.getD 0)
      else tierLimits config u) := by
  cases hr : u.override_limit_requests <;>
    cases hw : u.override_limit_window_seconds <;>
    cases he : u.override_limit_expiry <;>
    simp_all [resolveLimits, overrideIsActive]

/-- The engine after a successful resolution with a positive window:
increment, then the strict comparison. -/
theorem checkRateLimit_ok_unfold (config : RateLimitConfig) (ttl : String → Int)
    (u : User) (now : Int) (store : String → Int) (l w : Int)
    (h : resolveLimits config u now = .ok (l, w)) (hw : 0 < w) :
    checkRateLimit config ttl u now store =
      (if store (keyOf u now w) + 1 > l then
        .ok (.RateLimited (if 0 ≤ ttl (keyOf u now w) then ttl (keyOf u now w) else w),
          fun k => if k = keyOf u now w then store (keyOf u now w) + 1 else store k)
      else
        .ok (.Allowed,
          fun k => if k = keyOf u now w then store (keyOf u now w) + 1 else store k)) := by
  simp only [checkRateLimit, h]
  rw [if_neg (by omega)]

/-- A resolution error propagates unchanged. -/
theorem checkRateLimit_resolveErr (config : RateLimitConfig) (ttl : String → Int)
    (u : User) (now : Int) (store : String → Int) (e : RLError)
    (h : resolveLimits config u now = .error e) :
    checkRateLimit config ttl u now store = .error e := by
  simp only [checkRateLimit, h]

/-- A non-positive effective window fails with the invalid-window reason. -/
theorem checkRateLimit_nonposWindow (config : RateLimitConfig) (ttl : String → Int)
    (u : User) (now : Int) (store : String → Int) (l w : Int)
    (h : resolveLimits config u now = .ok (l, w)) (hw : w ≤ 0) :
    checkRateLimit config ttl u now store =
      .error (.configError ("Invalid windowSeconds: " ++ intToString w)) := by
  simp only [checkRateLimit, h]
  rw [if_pos hw]

/-- Core counting invariant: over any same-bucket call sequence the number of
allowed decisions is bounded by the remaining budget. -/
theorem runChecks_le (config : RateLimitConfig) (ttl : String → Int) (u : User)
    (l w : Int) (k : String) (hw : 0 < w) :
    ∀ (nows : List Int), (∀ now ∈ nows, resolveLimits config u now = .ok (l, w) ∧
      keyOf u now w = k) →
    ∀ (store : String → Int),
      runChecks config ttl u nows store ≤ (l - store k).toNat := by
  intro nows
  induction nows with
  | nil => intro _ store; simp [runChecks]
  | cons now rest ih =>
    intro hres store
    obtain ⟨h1, h2⟩ := hres now (by simp)
    have hrest : ∀ n ∈ rest, resolveLimits config u n = .ok (l, w) ∧ keyOf u n w = k :=
      fun n hn => hres n (by simp [hn])
    have hred := checkRateLimit_ok_unfold config ttl u now store l w h1 hw
    rw [h2] at hred
    rw [runChecks, hred]
    have iha := ih hrest (fun k2 => if k2 = k then store k + 1 else store k2)
    simp only [eq_self_iff_true, if_true] at iha
    by_cases hc : store k + 1 > l
    · rw [if_pos hc]
      show runChecks config ttl u rest (fun k2 => if k2 = k then store k + 1 else store k2) ≤
        (l - store k).toNat
      omega
    · rw [if_neg hc]
      show 1 + runChecks config ttl u rest (fun k2 => if k2 = k then store k + 1 else store k2) ≤
        (l - store k).toNat
      omega

/-- C1: for a fixed effective pair `(limit, windowSeconds)` with `limit ≥ 1`
and `windowSeconds ≥ 1`, over any sequence of `checkRateLimit` calls whose
derived key falls in the same bucket, with the counter starting from 0 and
each call atomically incrementing it by 1, the number of `Allowed` decisions
never exceeds `limit`. -/
theorem claim_C1_allowed_bounded (config : RateLimitConfig) (ttl : String → Int)
    (u : User) (l w : Int) (k : String) (nows : List Int) (store : String → Int)
    (hl : 1 ≤ l) (hw : 1 ≤ w)
    (hres : ∀ now ∈ nows, resolveLimits config u now = .ok (l, w) ∧ keyOf u now w = k)
    (h0 : store k = 0) :
    (runChecks config ttl u nows store : Int) ≤ l := by
  have := runChecks_le config ttl u l w k (by omega) nows hres store
  rw [h0] at this
  omega

/-- Witness for C1: two same-bucket calls of a free-tier user. -/
theorem claim_C1_witness :
    (runChecks rateLimitConfigData wTtl freeUser [0, 500] store0 : Int) ≤ 10 :=
  claim_C1_allowed_bounded rateLimitConfigData wTtl freeUser 10 60
    (keyOf freeUser 0 60) [0, 500] store0 (by decide) (by decide) (by decide) (by decide)

/-- C2: the comparison against the limit is strict on the post-increment
counter value: a call observing `count ≤ limit` (in particular
`count = limit`) returns `Allowed`; a call observing `count > limit` (in
particular `count = limit + 1`, the first denied request) returns
`RateLimited`. -/
theorem claim_C2_strict_comparison (config : RateLimitConfig) (ttl : String → Int)
    (u : User) (now : Int) (store : String → Int) (l w : Int)
    (hres : resolveLimits config u now = .ok (l, w)) (hw : 0 < w) :
    (store (keyOf u now w) + 1 ≤ l →
      checkDecision config ttl u now store = .ok .Allowed)
    ∧ (store (keyOf u now w) + 1 > l →
      checkDecision config ttl u now store =
        .ok (.RateLimited
          (if 0 ≤ ttl (keyOf u now w) then ttl (keyOf u now w) else w))) := by
  have h := checkRateLimit_ok_unfold config ttl u now store l w hres hw
  constructor
  · intro hle
    rw [checkDecision, h, if_neg (by omega)]
    rfl
  · intro hgt
    rw [checkDecision, h, if_pos hgt]
    rfl

/-- Witness for C2: free tier (limit 10), counts 10 and 11. -/
theorem claim_C2_witness :
    checkDecision rateLimitConfigData wTtl freeUser 0 (fun _ => 9) = .ok .Allowed
    ∧ checkDecision rateLimitConfigData wTtl freeUser 0 (fun _ => 10) =
        .ok (.RateLimited 42) :=
  ⟨(claim_C2_strict_comparison rateLimitConfigData wTtl freeUser 0 (fun _ => 9) 10 60
      (by decide) (by decide)).1 (by decide),
    by
      have := (claim_C2_strict_comparison rateLimitConfigData wTtl freeUser 0
        (fun _ => 10) 10 60 (by decide) (by decide)).2 (by decide)
      simpa using this⟩

/-- C3: the engine uses the override pair as the effective limit and window
iff all three override fields are non-null and the expiry is strictly after
the call clock reading; a partial or expired override resolves exactly as no
override at all (tier fallback, no error introduced). -/
theorem claim_C3_override_resolution (config : RateLimitConfig) (u : User) (now : Int) :
    (∀ req win exp, u.override_limit_requests = some req →
      u.override_limit_window_seconds = some win →
      u.override_limit_expiry = some exp → now < exp →
      resolveLimits config u now = .ok (req, win))
    ∧ (overrideIsActive u now = false →
      resolveLimits config u now =
        resolveLimits config
          { u with
            override_limit_requests := none
            override_limit_window_seconds := none
            override_limit_expiry := none } now)
    ∧ (overrideIsActive u now = true ↔
      ∃ req win exp, u.override_limit_requests = some req ∧
        u.override_limit_window_seconds = some win ∧
        u.override_limit_expiry = some exp ∧ now < exp) := by
  refine ⟨fun req win exp hr hw he hexp =>
    resolveLimits_of_active config u now req win exp hr hw he hexp,
    fun h => ?_, overrideIsActive_iff u now⟩
  rw [resolveLimits_of_inactive config u now h]
  rfl

/-- Witness for C3: the override pair is chosen while unexpired. -/
theorem claim_C3_witness :
    resolveLimits rateLimitConfigData overrideUser 0 = .ok (5, 30) :=
  (claim_C3_override_resolution rateLimitConfigData overrideUser 0).1 5 30 100000
    rfl rfl rfl (by decide)

/-- C4: on the over-limit path the engine returns `RateLimited` with
`retryAfterSeconds` equal to the TTL reading when it is `≥ 0`, and equal to
`windowSeconds` when the TTL is negative (covering both the `-2` lost-key
sentinel and the `-1` no-expiry sentinel). -/
theorem claim_C4_retry_after_ttl (config : RateLimitConfig) (ttl : String → Int)
    (u : User) (now : Int) (store : String → Int) (l w : Int)
    (hres : resolveLimits config u now = .ok (l, w)) (hw : 0 < w)
    (hover : l < store (keyOf u now w) + 1) :
    (0 ≤ ttl (keyOf u now w) →
      checkDecision config ttl u now store = .ok (.RateLimited (ttl (keyOf u now w))))
    ∧ (ttl (keyOf u now w) < 0 →
      checkDecision config ttl u now store = .ok (.RateLimited w)) := by
  have h := checkRateLimit_ok_unfold config ttl u now store l w hres hw
  constructor
  · intro ht
    rw [checkDecision, h, if_pos (by omega), if_pos ht]
    rfl
  · intro ht
    rw [checkDecision, h, if_pos (by omega), if_neg (by omega)]
    rfl

/-- Witness for C4: TTL readings `-2`, `-1` and `7` past the free limit. -/
theorem claim_C4_witness :
    checkDecision rateLimitConfigData (fun _ => -2) freeUser 0 (fun _ => 10) =
      .ok (.RateLimited 60)
    ∧ checkDecision rateLimitConfigData (fun _ => -1) freeUser 0 (fun _ => 10) =
      .ok (.RateLimited 60)
    ∧ checkDecision rateLimitConfigData (fun _ => 7) freeUser 0 (fun _ => 10) =
      .ok (.RateLimited 7) :=
  ⟨(claim_C4_retry_after_ttl rateLimitConfigData (fun _ => -2) freeUser 0 (fun _ => 10)
      10 60 (by decide) (by decide) (by decide)).2 (by decide),
    (claim_C4_retry_after_ttl rateLimitConfigData (fun _ => -1) freeUser 0 (fun _ => 10)
      10 60 (by decide) (by decide) (by decide)).2 (by decide),
    (claim_C4_retry_after_ttl rateLimitConfigData (fun _ => 7) freeUser 0 (fun _ => 10)
      10 60 (by decide) (by decide) (by decide)).1 (by decide)⟩

/-- Bucket starts are non-negative for non-negative clocks. -/
theorem windowStartSeconds_nonneg (t w : Int) (ht : 0 ≤ t) (hw : 0 < w) :
    0 ≤ windowStartSeconds t w :=
  mul_nonneg (Int.fdiv_nonneg (Int.fdiv_nonneg ht (by omega)) (by omega)) (by omega)

/-- For a fixed user, distinct non-negative bucket starts give distinct
counter keys. -/
theorem redisKey_inj (userId : String) (a b : Int) (ha : 0 ≤ a) (hb : 0 ≤ b)
    (h : redisKey userId a = redisKey userId b) : a = b := by
  have hd := congrArg String.data h
  simp only [redisKey, String.data_append, List.append_assoc] at hd
  have h1 := List.append_cancel_left hd
  have h2 := List.append_cancel_left h1
  have h3 := List.append_cancel_left h2
  have hs : intToString a = intToString b := by
    cases hA : intToString a
    cases hB : intToString b
    rw [hA, hB] at h3
    simp_all
  exact intToString_inj a b ha hb hs

/-- C5: the derived counter key is
`rate_limit:<userId>:<floor(floor(now/1000)/windowSeconds)*windowSeconds>`,
and two clock readings yield the same key iff they fall in the same bucket
(`floor(now/1000/windowSeconds)` agrees). -/
theorem claim_C5_key_derivation (u : User) (w now δ : Int)
    (hw : 0 < w) (hnow : 0 ≤ now) (hδ : 0 ≤ now + δ) :
    keyOf u now w = "rate_limit:" ++ u.id ++ ":" ++
      intToString (((now.fdiv 1000).fdiv w) * w)
    ∧ (keyOf u (now + δ) w = keyOf u now w ↔
      ((now + δ).fdiv 1000).fdiv w = (now.fdiv 1000).fdiv w) := by
  refine ⟨rfl, ?_, ?_⟩
  · intro h
    have hws : windowStartSeconds (now + δ) w = windowStartSeconds now w :=
      redisKey_inj u.id _ _
        (windowStartSeconds_nonneg (now + δ) w hδ hw)
        (windowStartSeconds_nonneg now w hnow hw) h
    exact mul_right_cancel₀ (by omega) hws
  · intro h
    simp only [keyOf, windowStartSeconds, h]

/-- Witness for C5: the key shape at `t = 0` and bucket equality of `t = 0`
and `t = 500` ms for a 60 s window. -/
theorem claim_C5_witness :
    keyOf freeUser 0 60 = "rate_limit:" ++ freeUser.id ++ ":" ++
      intToString ((((0 : Int).fdiv 1000).fdiv 60) * 60)
    ∧ (keyOf freeUser (0 + 500) 60 = keyOf freeUser 0 60 ↔
      (((0 : Int) + 500).fdiv 1000).fdiv 60 = ((0 : Int).fdiv 1000).fdiv 60) :=
  claim_C5_key_derivation freeUser 60 0 500 (by decide) (by decide) (by decide)

/-- The only resolution failure is the missing-tier error, reached exactly
when the override guard fails and the tier has no registry entry. -/
theorem resolveLimits_error_char (config : RateLimitConfig) (u : User) (now : Int)
    (e : RLError) (h : resolveLimits config u now = .error e) :
    overrideIsActive u now = false ∧ config u.tier = none ∧
      e = .configError ("Config missing for tier " ++ u.tier) := by
  by_cases ha : overrideIsActive u now
  · obtain ⟨req, win, exp, hr, hw, he, hexp⟩ := (overrideIsActive_iff u now).mp ha
    rw [resolveLimits_of_active config u now req win exp hr hw he hexp] at h
    cases h
  · have ha' : overrideIsActive u now = false := by simpa using ha
    rw [resolveLimits_of_inactive config u now ha'] at h
    cases hc : config u.tier with
    | none =>
      simp only [tierLimits, hc] at h
      exact ⟨ha', rfl, by injection h with h2; exact h2.symm⟩
    | some tc =>
      simp only [tierLimits, hc] at h
      cases h

/-- C6 (amended): the engine fails with
`ConfigError("Config missing for tier <t>")` exactly when no override is
active and the tier has no registry entry; it fails with
`ConfigError("Invalid windowSeconds: <w>")` when the effective window is
`≤ 0`; and whenever it proceeds past limit resolution the effective window
is positive.  (The original claim also asserted `limit > 0` past
resolution; the code never checks the effective limit for positivity, see
the counterexample.) -/
theorem claim_C6_config_errors (config : RateLimitConfig) (ttl : String → Int)
    (u : User) (now : Int) (store : String → Int) :
    ((checkDecision config ttl u now store =
        .error (.configError ("Config missing for tier " ++ u.tier)))
      ↔ (overrideIsActive u now = false ∧ config u.tier = none))
    ∧ (∀ l w, resolveLimits config u now = .ok (l, w) → w ≤ 0 →
      checkDecision config ttl u now store =
        .error (.configError ("Invalid windowSeconds: " ++ intToString w)))
    ∧ (∀ st, checkDecision config ttl u now store = .ok st →
      ∃ l w, resolveLimits config u now = .ok (l, w) ∧ 0 < w) := by
  refine ⟨⟨?_, ?_⟩, ?_, ?_⟩
  · intro h
    cases hres : resolveLimits config u now with
    | error e =>
      have hchar := resolveLimits_error_char config u now e hres
      exact ⟨hchar.1, hchar.2.1⟩
    | ok p =>
      obtain ⟨l, w⟩ := p
      exfalso
      by_cases hw : w ≤ 0
      · rw [checkDecision, checkRateLimit_nonposWindow config ttl u now store l w hres hw] at h
        simp only [Except.map] at h
        injection h with h2
        injection h2 with h3
        exact invalid_ne_missing (intToString w) u.tier h3
      · rw [checkDecision,
          checkRateLimit_ok_unfold config ttl u now store l w hres (by omega)] at h
        split at h <;> simp [Except.map] at h
  · rintro ⟨hin, hct⟩
    have hres : resolveLimits config u now =
        .error (.configError ("Config missing for tier " ++ u.tier)) := by
      rw [resolveLimits_of_inactive config u now hin]
      simp only [tierLimits, hct]
    rw [checkDecision, checkRateLimit_resolveErr config ttl u now store _ hres]
    rfl
  · intro l w hres hw
    rw [checkDecision, checkRateLimit_nonposWindow config ttl u now store l w hres hw]
    rfl
  · intro st h
    cases hres : resolveLimits config u now with
    | error e =>
      rw [checkDecision, checkRateLimit_resolveErr config ttl u now store e hres] at h
      simp [Except.map] at h
    | ok p =>
      obtain ⟨l, w⟩ := p
      by_cases hw : w ≤ 0
      · rw [checkDecision, checkRateLimit_nonposWindow config ttl u now store l w hres hw] at h
        simp [Except.map] at h
      · exact ⟨l, w, rfl, by omega⟩

/-- Counterexample to C6 as stated: with an active override `(0, 60)` the
engine proceeds past resolution with effective limit `0` (not `> 0`) and
returns a decision rather than failing. -/
theorem claim_C6_counterexample :
    resolveLimits rateLimitConfigData zeroLimitUser 0 = .ok (0, 60)
    ∧ checkDecision rateLimitConfigData wTtl zeroLimitUser 0 store0 =
        .ok (.RateLimited 42)
    ∧ ¬ (0 : Int) > 0 := by decide

/-- Witness for C6 (amended): the missing-tier failure fires for an
override-free user of an unknown tier. -/
theorem claim_C6_witness :
    checkDecision rateLimitConfigData wTtl unknownTierUser 0 store0 =
      .error (.configError ("Config missing for tier " ++ unknownTierUser.tier)) :=
  (claim_C6_config_errors rateLimitConfigData wTtl unknownTierUser 0 store0).1.mpr
    ⟨by decide, by decide⟩

/-- C10 (amended): under an active override the engine never consults the
tier registry — the decision is identical under any two configs and the
missing-tier failure is unreachable — and the user receives a decision even
when the tier has no registry entry, provided the override window is
positive.  (The original claim promised a decision unconditionally; an
active override with window `≤ 0` fails with the invalid-window error, see
the counterexample.) -/
theorem claim_C10_override_independent (config config2 : RateLimitConfig)
    (ttl : String → Int) (u : User) (now : Int) (store : String → Int)
    (hact : overrideIsActive u now = true) :
    checkDecision config ttl u now store = checkDecision config2 ttl u now store
    ∧ (∀ t, checkDecision config ttl u now store ≠
        .error (.configError ("Config missing for tier " ++ t)))
    ∧ (∀ win, u.override_limit_window_seconds = some win → 0 < win →
      ∃ st, checkDecision config ttl u now store = .ok st) := by
  obtain ⟨req, win, exp, hr, hwnd, he, hexp⟩ := (overrideIsActive_iff u now).mp hact
  have hres : resolveLimits config u now = .ok (req, win) :=
    resolveLimits_of_active config u now req win exp hr hwnd he hexp
  have hres2 : resolveLimits config2 u now = .ok (req, win) :=
    resolveLimits_of_active config2 u now req win exp hr hwnd he hexp
  refine ⟨?_, ?_, ?_⟩
  · by_cases hw : win ≤ 0
    · rw [checkDecision, checkRateLimit_nonposWindow config ttl u now store req win hres hw,
        checkDecision, checkRateLimit_nonposWindow config2 ttl u now store req win hres2 hw]
    · rw [checkDecision,
        checkRateLimit_ok_unfold config ttl u now store req win hres (by omega),
        checkDecision,
        checkRateLimit_ok_unfold config2 ttl u now store req win hres2 (by omega)]
  · intro t hcontra
    by_cases hw : win ≤ 0
    · rw [checkDecision, checkRateLimit_nonposWindow config ttl u now store req win hres hw] at hcontra
      simp only [Except.map] at hcontra
      injection hcontra with h2
      injection h2 with h3
      exact invalid_ne_missing (intToString win) t h3
    · rw [checkDecision,
        checkRateLimit_ok_unfold config ttl u now store req win hres (by omega)] at hcontra
      split at hcontra <;> simp [Except.map] at hcontra
  · intro win2 hwin2 hpos
    have hww : win2 = win := by rw [hwnd] at hwin2; injection hwin2 with h2; exact h2.symm
    subst hww
    rw [checkDecision, checkRateLimit_ok_unfold config ttl u now store req win2 hres hpos]
    by_cases hc : store (keyOf u now win2) + 1 > req
    · exact ⟨_, by rw [if_pos hc]; rfl⟩
    · exact ⟨.Allowed, by rw [if_neg hc]; rfl⟩

/-- Counterexample to C10 as stated: an active override with window `0`
yields a `ConfigError`, not a decision. -/
theorem claim_C10_counterexample :
    overrideIsActive zeroWindowUser 0 = true
    ∧ rateLimitConfigData zeroWindowUser.tier = none
    ∧ checkDecision rateLimitConfigData wTtl zeroWindowUser 0 store0 =
        .error (.configError "Invalid windowSeconds: 0") := by decide

/-- Witness for C10 (amended): with an active override the decision is the
same under the real registry and under an empty one. -/
theorem claim_C10_witness :
    checkDecision rateLimitConfigData wTtl overrideUser 0 store0 =
      checkDecision (fun _ => none) wTtl overrideUser 0 store0 :=
  (claim_C10_override_independent rateLimitConfigData (fun _ => none) wTtl overrideUser
    0 store0 (by decide)).1

/-- C7 (amended): the override writer performs no positivity validation:
the body schema accepts any numeric value for the override fields
(including `≤ 0`), and when the user row exists and the store reports no
error the handler persists the supplied values unchanged rather than
failing.  (The original claim asserted that a supplied
`override_limit_requests ≤ 0` or `override_limit_window_seconds ≤ 0` makes
the write fail.) -/
theorem claim_C7_no_positivity_validation (raw : RawBody) (b : UpdateBody)
    (userId : String) (row : OverrideRow)
    (hdec : decodeBody raw = some b) :
    updateEndpoint raw userId (some row) false = .success (applyUpdate row b)
    ∧ (∀ k, b.override_limit_requests = .num k →
      (applyUpdate row b).override_limit_requests = some k)
    ∧ (∀ k, b.override_limit_window_seconds = .num k →
      (applyUpdate row b).override_limit_window_seconds = some k)
    ∧ (∀ k, decodeNumField (some (.num k)) = some (.num k)) := by
  refine ⟨?_, ?_, ?_, fun k => rfl⟩
  · simp only [updateEndpoint, hdec]
    rfl
  · intro k hk
    simp [applyUpdate, hk, fieldToSet]
  · intro k hk
    simp [applyUpdate, hk, fieldToSet]

/-- Counterexample to C7 as stated: a body supplying the non-positive value
`override_limit_requests = 0` passes validation and the write succeeds,
persisting `0`. -/
theorem claim_C7_counterexample :
    updateEndpoint rawZeroBody "u7" (some emptyRow) false =
      .success ⟨some 0, none, none⟩
    ∧ ¬ (0 : Int) > 0 := by decide

/-- Witness for C7 (amended): the decoded `0` is persisted as-is. -/
theorem claim_C7_witness :
    (applyUpdate emptyRow ⟨.num 0, .absent, .absent⟩).override_limit_requests =
      some 0 :=
  (claim_C7_no_positivity_validation rawZeroBody ⟨.num 0, .absent, .absent⟩ "u7"
    emptyRow (by decide)).2.1 0 rfl

/-- C8 (amended): the check and update endpoints map a missing user to 404
with body `error: "User <id> not found"`, a user-store error to 500 with
`error: "Database error"`, a counter-store error to 500 with
`error: "Cache error"` and a config error to 500 with
`error: "Config error"`, all bodies of shape `error: <string>`; the stats
endpoint (`testCombinedLogicHandler`) deviates from this mapping, returning
plain-string bodies `DB Error`, `Cache Error`, `Config Error` and the raw
message on 404.  (The original claim asserted a single mapping used by
every endpoint.) -/
theorem claim_C8_error_mappings (userId : String) :
    checkHandlerErrorResponse (.notFoundErr (notFoundMessage userId)) =
      (404, .errObj ("User " ++ userId ++ " not found"))
    ∧ checkHandlerErrorResponse .supabaseErr = (500, .errObj "Database error")
    ∧ checkHandlerErrorResponse .redisErr = (500, .errObj "Cache error")
    ∧ checkHandlerErrorResponse .configErr = (500, .errObj "Config error")
    ∧ updateHandlerErrorResponse (.notFoundErr (notFoundMessage userId)) =
      (404, .errObj ("User " ++ userId ++ " not found"))
    ∧ updateHandlerErrorResponse .supabaseErr = (500, .errObj "Database error")
    ∧ statsHandlerErrorResponse (.notFoundErr (notFoundMessage userId)) =
      (404, .str ("User " ++ userId ++ " not found"))
    ∧ statsHandlerErrorResponse .supabaseErr = (500, .str "DB Error")
    ∧ statsHandlerErrorResponse .redisErr = (500, .str "Cache Error")
    ∧ statsHandlerErrorResponse .configErr = (500, .str "Config Error") :=
  ⟨rfl, rfl, rfl, rfl, rfl, rfl, rfl, rfl, rfl, rfl⟩

/-- Counterexample to C8 as stated: the stats endpoint maps a user-store
error to a plain-string body `DB Error`, which is neither the claimed
`error: "Database error"` object nor of shape `error: <string>`. -/
theorem claim_C8_counterexample :
    statsHandlerErrorResponse .supabaseErr = (500, .str "DB Error")
    ∧ statsHandlerErrorResponse .supabaseErr ≠ (500, .errObj "Database error")
    ∧ RespBody.str "DB Error" ≠ RespBody.errObj "Database error" := by decide

/-- C9: when `checkRateLimit` returns `RateLimited r`, the check endpoint
responds with HTTP status 429, body
`statusCode 429 / status "NOT ALLOWED" / RetryAfter "<r>"` with `<r>` the
decimal rendering of `retryAfterSeconds`, and the same value in the
`Retry-After` header (framing modelled from the spec). -/
theorem claim_C9_rate_limited_response (r : Int) :
    frameCheckResponse (checkHandlerResponse (.RateLimited r)) =
      ⟨429, ⟨429, "NOT ALLOWED", some (intToString r)⟩, some (intToString r)⟩
    ∧ (frameCheckResponse (checkHandlerResponse (.RateLimited r))).retryAfterHeader =
      (frameCheckResponse (checkHandlerResponse (.RateLimited r))).body.RetryAfter :=
  ⟨rfl, rfl⟩

/-- Witness for C9: `retryAfterSeconds = 7` renders as `"7"` in both body
and header. -/
theorem claim_C9_witness :
    frameCheckResponse (checkHandlerResponse (.RateLimited 7)) =
      ⟨429, ⟨429, "NOT ALLOWED", some "7"⟩, some "7"⟩ :=
  (claim_C9_rate_limited_response 7).1.trans (by decide)
